import Mathlib

/-
Verification of the audio ingestion and feature-extraction pipeline of
src/API/streamlit_app.py.

Modelling conventions:
- Python floats are modelled as rationals; the NaN sentinel produced by
  float("nan") is modelled by the value none of Option Rat.
- soundfile.read output is modelled by RawAudio: either a mono sample list
  or a frames-by-channels matrix (a list of per-frame channel rows), plus
  the native sample rate. A decode failure (sf.read raising) is modelled by
  the Option value none at the pipeline level.
- librosa.resample, librosa.yin plus np.nanmean, and librosa.feature.rms
  plus np.nanmean are opaque numeric routines; they enter the model as
  function parameters. An estimator returning Except.error models the
  routine raising an exception; Except.ok none models it returning NaN.
- The classifier collaborator infa_deepfake is opaque; the outcome of one
  call is a parameter of type Except String (Nat x String), where
  Except.error models the call raising.
- Filesystem effects are recorded in an event trace so that cleanup and
  classifier invocation become provable properties of a run.
-/

namespace StreamlitApp

/-- A Python float that may be NaN: none stands for NaN. -/
abbrev FloatVal := Option ℚ

/-- Sample data as returned by sf.read with always_2d set to False:
a one-dimensional array for mono input, otherwise a frames-by-channels
two-dimensional array, modelled as the list of per-frame channel rows. -/
inductive Channels where
  | mono (y : List ℚ)
  | multi (rows : List (List ℚ))
deriving DecidableEq

/-- The decoded audio: sample data plus native sample rate. -/
structure RawAudio where
  data : Channels
  sr : Nat
deriving DecidableEq

/-- The dictionary returned by extract_audio_metadata. -/
structure AudioInfo where
  samples : Nat
  sr : Nat
  duration : ℚ
  avg_pitch : FloatVal
  avg_energy : FloatVal
  waveform : List ℚ
deriving DecidableEq

/-- Model of np.mean(y, axis=1) on a frames-by-channels array: the
arithmetic mean of each row. -/
def npMeanAxis1 (rows : List (List ℚ)) : List ℚ :=
  rows.map (fun r => r.sum / (r.length : ℚ))

/-- The mono mixdown step of extract_audio_metadata: if y.ndim > 1 then
y = np.mean(y, axis=1), otherwise y is left unchanged. -/
def toMono : Channels → List ℚ
  | Channels.mono y => y
  | Channels.multi rows => npMeanAxis1 rows

/-- The target sample rate hard-coded in extract_audio_metadata. -/
def target_sr : Nat := 16000

/-- The resample step of extract_audio_metadata: if sr differs from
target_sr then y = librosa.resample(y, sr, target_sr) and sr = target_sr,
otherwise both are left unchanged. The opaque resampler is a parameter. -/
def normalizeSignal (resample : List ℚ → Nat → Nat → List ℚ)
    (raw : RawAudio) : List ℚ × Nat :=
  let y := toMono raw.data
  if raw.sr ≠ target_sr then (resample y raw.sr target_sr, target_sr)
  else (y, raw.sr)

/-- Model of extract_audio_metadata. The pitch routine (librosa.yin
followed by float(np.nanmean(...))) and the energy routine
(librosa.feature.rms followed by float(np.nanmean(...))) are parameters;
each is wrapped in its own try/except that replaces an exception by NaN.
librosa.get_duration(y, sr) is len(y) / sr. -/
def extract_audio_metadata
    (resample : List ℚ → Nat → Nat → List ℚ)
    (pitchEst energyEst : List ℚ → Except String FloatVal)
    (raw : RawAudio) : AudioInfo :=
  let ysr := normalizeSignal resample raw
  let y := ysr.1
  let sr := ysr.2
  { samples := y.length
    sr := sr
    duration := (y.length : ℚ) / (sr : ℚ)
    avg_pitch :=
      match pitchEst y with
      | Except.ok v => v
      | Except.error _ => none
    avg_energy :=
      match energyEst y with
      | Except.ok v => v
      | Except.error _ => none
    waveform := y }

/-- Model of force_real_result: returns status 1, a fixed message, and the
given profile unchanged. -/
def force_real_result (audio_info : AudioInfo) : Nat × String × AudioInfo :=
  (1, "This audio was recorded live and is classified as REAL.", audio_info)

/-- The fallback dictionary built in process_audio_file when
extract_audio_metadata raises. -/
def fallbackInfo : AudioInfo :=
  { samples := 0, sr := 0, duration := 0,
    avg_pitch := none, avg_energy := none, waveform := [] }

/-- Observable filesystem and call events of one pipeline run. -/
inductive Event where
  | mkdirTemp
  | writeFile
  | extractMeta
  | extractFallback
  | classify
  | forceReal
  | rmtree
deriving DecidableEq, BEq

/-- Outcome of one pipeline run: the value returned to the caller, or
Except.error for an exception propagated to the caller, together with the
trace of events that occurred. -/
structure PipelineRun where
  result : Except String (Nat × String × AudioInfo)
  trace : List Event

/-- The profile the upload path ends up with: the extracted metadata when
sf.read succeeded, the fallback dictionary when it raised. -/
def uploadInfo (resample : List ℚ → Nat → Nat → List ℚ)
    (pitchEst energyEst : List ℚ → Except String FloatVal)
    (decoded : Option RawAudio) : AudioInfo :=
  match decoded with
  | some raw => extract_audio_metadata resample pitchEst energyEst raw
  | none => fallbackInfo

/-- Events of the inner try/except of process_audio_file. -/
def metaEvents (decoded : Option RawAudio) : List Event :=
  match decoded with
  | some _ => [Event.extractMeta]
  | none => [Event.extractMeta, Event.extractFallback]

/-- Model of process_audio_file (the upload path). The inner try/except
turns a metadata failure into fallbackInfo; infa_deepfake is then called
unconditionally and is not guarded, so Except.error from it becomes the
result of the whole run; the finally clause removes the temporary
directory on both outcomes. -/
def process_audio_file
    (resample : List ℚ → Nat → Nat → List ℚ)
    (pitchEst energyEst : List ℚ → Except String FloatVal)
    (decoded : Option RawAudio)
    (infa : Except String (Nat × String)) : PipelineRun :=
  let info := uploadInfo resample pitchEst energyEst decoded
  let tr := Event.mkdirTemp :: Event.writeFile ::
    (metaEvents decoded ++ [Event.classify, Event.rmtree])
  match infa with
  | Except.ok sm => { result := Except.ok (sm.1, sm.2, info), trace := tr }
  | Except.error e => { result := Except.error e, trace := tr }

/-- Model of the record-mode analysis block of main: extract_audio_metadata
is called with no surrounding except clause, so a decode failure propagates
to the caller; on success the result is forced by force_real_result;
infa_deepfake is never called; the finally clause removes the temporary
directory on both outcomes. -/
def record_analysis
    (resample : List ℚ → Nat → Nat → List ℚ)
    (pitchEst energyEst : List ℚ → Except String FloatVal)
    (decoded : Option RawAudio) : PipelineRun :=
  match decoded with
  | some raw =>
      let info := extract_audio_metadata resample pitchEst energyEst raw
      { result := Except.ok (force_real_result info)
        trace := [Event.mkdirTemp, Event.writeFile, Event.extractMeta,
                  Event.forceReal, Event.rmtree] }
  | none =>
      { result := Except.error "metadata extraction failed"
        trace := [Event.mkdirTemp, Event.writeFile, Event.extractMeta,
                  Event.rmtree] }

/-- A resampler that returns its input, used for concrete witnesses. -/
def idResample : List ℚ → Nat → Nat → List ℚ := fun y _ _ => y

/-- An estimator that succeeds with value 0, used for concrete witnesses. -/
def okEst : List ℚ → Except String FloatVal := fun _ => Except.ok (some 0)

/-- An estimator that raises, used for concrete witnesses. -/
def failEst : List ℚ → Except String FloatVal := fun _ => Except.error "est failed"

/-- A concrete two-sample mono clip at 16 kHz, used for witnesses. -/
def sampleRaw : RawAudio := { data := Channels.mono [1, 2], sr := 16000 }

/-- A concrete empty mono clip at 16 kHz, used for witnesses. -/
def emptyRaw : RawAudio := { data := Channels.mono [], sr := 16000 }

/-- C1 counterexample: on the upload path, an exception raised by the
classifier call infa_deepfake is not caught by process_audio_file; at this
concrete input the run ends with the exception propagated to the caller,
not with a status=Failure triple. -/
theorem upload_classifier_exception_propagates :
    (process_audio_file idResample okEst okEst (some sampleRaw)
        (Except.error "model crashed")).result =
      Except.error "model crashed" := rfl

/-- C1 amended: the upload path mirrors the classifier outcome. When
infa_deepfake returns a pair, the caller gets the structurally valid
triple; when infa_deepfake raises, the exception propagates to the caller
unconverted. The temporary directory is removed in both cases. -/
theorem upload_result_mirrors_classifier
    (rs : List ℚ → Nat → Nat → List ℚ)
    (pe ee : List ℚ → Except String FloatVal)
    (decoded : Option RawAudio) (infa : Except String (Nat × String)) :
    (process_audio_file rs pe ee decoded infa).result =
      Except.map (fun sm => (sm.1, sm.2, uploadInfo rs pe ee decoded)) infa ∧
    Event.rmtree ∈ (process_audio_file rs pe ee decoded infa).trace := by
  cases infa <;> exact ⟨rfl, by cases decoded <;> simp [process_audio_file, metaEvents]⟩

/-- C2: record-mode analysis never invokes the classifier, and whenever
decoding succeeds it returns status 1 with the fixed REAL message and the
profile extracted as usual by extract_audio_metadata. -/
theorem record_mode_forces_real
    (rs : List ℚ → Nat → Nat → List ℚ)
    (pe ee : List ℚ → Except String FloatVal)
    (decoded : Option RawAudio) :
    Event.classify ∉ (record_analysis rs pe ee decoded).trace ∧
    ∀ raw, decoded = some raw →
      (record_analysis rs pe ee decoded).result =
        Except.ok (1, "This audio was recorded live and is classified as REAL.",
          extract_audio_metadata rs pe ee raw) := by
  cases decoded with
  | some raw =>
      refine ⟨by simp [record_analysis], ?_⟩
      intro r hr
      injection hr with h
      subst h
      rfl
  | none =>
      refine ⟨by simp [record_analysis], ?_⟩
      intro r hr
      simp at hr

/-- C2 witness: the record-mode guarantees evaluated at a concrete clip. -/
theorem record_mode_forces_real_witness :
    Event.classify ∉ (record_analysis idResample okEst okEst (some sampleRaw)).trace ∧
    (record_analysis idResample okEst okEst (some sampleRaw)).result =
      Except.ok (1, "This audio was recorded live and is classified as REAL.",
        extract_audio_metadata idResample okEst okEst sampleRaw) :=
  ⟨(record_mode_forces_real idResample okEst okEst (some sampleRaw)).1,
   (record_mode_forces_real idResample okEst okEst (some sampleRaw)).2 sampleRaw rfl⟩

/-- C3 counterexample: on the record entry point an unparseable stream does
not yield the fallback profile; the decode exception propagates to the
caller and the classifier is not attempted, refuting "this holds for every
entry point". -/
theorem record_decode_failure_raises :
    (record_analysis idResample okEst okEst none).result =
      Except.error "metadata extraction failed" ∧
    Event.classify ∉ (record_analysis idResample okEst okEst none).trace :=
  ⟨rfl, by simp [record_analysis]⟩

/-- C3 amended: on the upload entry point an unparseable stream yields the
fallback profile (samples 0, sr 0, duration 0, NaN pitch, NaN energy,
empty waveform) without raising, and the classifier is still attempted; on
the record entry point the decode failure propagates as an exception and
the classifier is never attempted. -/
theorem decode_failure_fallback_upload_only
    (rs : List ℚ → Nat → Nat → List ℚ)
    (pe ee : List ℚ → Except String FloatVal)
    (infa : Except String (Nat × String)) :
    uploadInfo rs pe ee none =
      { samples := 0, sr := 0, duration := 0,
        avg_pitch := none, avg_energy := none, waveform := [] } ∧
    Event.classify ∈ (process_audio_file rs pe ee none infa).trace ∧
    (∀ s m, infa = Except.ok (s, m) →
      (process_audio_file rs pe ee none infa).result =
        Except.ok (s, m, fallbackInfo)) ∧
    (record_analysis rs pe ee none).result =
      Except.error "metadata extraction failed" := by
  refine ⟨rfl, by cases infa <;> simp [process_audio_file, metaEvents], ?_, rfl⟩
  intro s m h
  subst h
  rfl

/-- C3 amended witness: the upload fallback behavior at a concrete
classifier outcome. -/
theorem decode_failure_fallback_witness :
    uploadInfo idResample okEst okEst none =
      { samples := 0, sr := 0, duration := 0,
        avg_pitch := none, avg_energy := none, waveform := [] } ∧
    (process_audio_file idResample okEst okEst none
        (Except.ok (1, "verdict"))).result =
      Except.ok (1, "verdict", fallbackInfo) :=
  ⟨(decode_failure_fallback_upload_only idResample okEst okEst
      (Except.ok (1, "verdict"))).1,
   (decode_failure_fallback_upload_only idResample okEst okEst
      (Except.ok (1, "verdict"))).2.2.1 1 "verdict" rfl⟩

/-- C4: on both entry points and on every decode and classifier outcome,
the temporary directory is removed exactly once and removal is the last
event of the run. -/
theorem temp_dir_removed_on_every_path
    (rs : List ℚ → Nat → Nat → List ℚ)
    (pe ee : List ℚ → Except String FloatVal)
    (decoded : Option RawAudio) (infa : Except String (Nat × String)) :
    (process_audio_file rs pe ee decoded infa).trace.count Event.rmtree = 1 ∧
    (process_audio_file rs pe ee decoded infa).trace.getLast? = some Event.rmtree ∧
    (record_analysis rs pe ee decoded).trace.count Event.rmtree = 1 ∧
    (record_analysis rs pe ee decoded).trace.getLast? = some Event.rmtree := by
  cases decoded <;> cases infa <;> exact ⟨rfl, rfl, rfl, rfl⟩

/-- C5: whenever the extracted profile has a non-empty sample buffer, its
sample rate field is exactly 16000. -/
theorem normalized_sr_is_16000
    (rs : List ℚ → Nat → Nat → List ℚ)
    (pe ee : List ℚ → Except String FloatVal)
    (raw : RawAudio)
    (_h : 0 < (extract_audio_metadata rs pe ee raw).samples) :
    (extract_audio_metadata rs pe ee raw).sr = 16000 := by
  have hsr : (normalizeSignal rs raw).2 = 16000 := by
    unfold normalizeSignal target_sr
    by_cases hc : raw.sr = 16000 <;> simp [hc]
  simpa [extract_audio_metadata] using hsr

/-- C5 witness: a concrete non-empty clip whose profile has rate 16000. -/
theorem normalized_sr_witness :
    0 < (extract_audio_metadata idResample okEst okEst sampleRaw).samples ∧
    (extract_audio_metadata idResample okEst okEst sampleRaw).sr = 16000 :=
  ⟨by decide, normalized_sr_is_16000 idResample okEst okEst sampleRaw (by decide)⟩

/-- C6: pitch and energy are computed under independent failure
boundaries: the energy field does not depend on the pitch routine and the
pitch field does not depend on the energy routine; a raising routine
yields NaN for its own field only, and a returning routine determines its
own field. -/
theorem feature_fault_isolation
    (rs : List ℚ → Nat → Nat → List ℚ)
    (pe pe2 ee ee2 : List ℚ → Except String FloatVal)
    (raw : RawAudio) :
    (extract_audio_metadata rs pe ee raw).avg_energy =
      (extract_audio_metadata rs pe2 ee raw).avg_energy ∧
    (extract_audio_metadata rs pe ee raw).avg_pitch =
      (extract_audio_metadata rs pe ee2 raw).avg_pitch ∧
    (∀ e, pe (normalizeSignal rs raw).1 = Except.error e →
      (extract_audio_metadata rs pe ee raw).avg_pitch = none) ∧
    (∀ v, ee (normalizeSignal rs raw).1 = Except.ok v →
      (extract_audio_metadata rs pe ee raw).avg_energy = v) ∧
    (∀ e, ee (normalizeSignal rs raw).1 = Except.error e →
      (extract_audio_metadata rs pe ee raw).avg_energy = none) ∧
    (∀ v, pe (normalizeSignal rs raw).1 = Except.ok v →
      (extract_audio_metadata rs pe ee raw).avg_pitch = v) := by
  refine ⟨rfl, rfl, ?_, ?_, ?_, ?_⟩ <;> intro x h <;>
    simp [extract_audio_metadata, h]

/-- C6 witness: a failing pitch routine with a succeeding energy routine
and vice versa, evaluated at a concrete clip. -/
theorem feature_fault_isolation_witness :
    (extract_audio_metadata idResample failEst okEst sampleRaw).avg_pitch = none ∧
    (extract_audio_metadata idResample failEst okEst sampleRaw).avg_energy = some 0 ∧
    (extract_audio_metadata idResample okEst failEst sampleRaw).avg_pitch = some 0 ∧
    (extract_audio_metadata idResample okEst failEst sampleRaw).avg_energy = none :=
  ⟨(feature_fault_isolation idResample failEst okEst okEst okEst sampleRaw).2.2.1
      "est failed" rfl,
   (feature_fault_isolation idResample failEst okEst okEst okEst sampleRaw).2.2.2.1
      (some 0) rfl,
   (feature_fault_isolation idResample okEst okEst failEst okEst sampleRaw).2.2.2.2.2
      (some 0) rfl,
   (feature_fault_isolation idResample okEst okEst failEst okEst sampleRaw).2.2.2.2.1
      "est failed" rfl⟩

/-- C7: the duration field equals the sample count divided by the sample
rate, and is zero for an empty signal. -/
theorem duration_eq_samples_div_sr
    (rs : List ℚ → Nat → Nat → List ℚ)
    (pe ee : List ℚ → Except String FloatVal)
    (raw : RawAudio) :
    (extract_audio_metadata rs pe ee raw).duration =
      ((extract_audio_metadata rs pe ee raw).samples : ℚ) /
        ((extract_audio_metadata rs pe ee raw).sr : ℚ) ∧
    ((extract_audio_metadata rs pe ee raw).samples = 0 →
      (extract_audio_metadata rs pe ee raw).duration = 0) := by
  constructor
  · rfl
  · intro h
    simp only [extract_audio_metadata] at h ⊢
    simp [h]

/-- C7 witness: the empty clip has zero samples and zero duration. -/
theorem duration_witness :
    (extract_audio_metadata idResample okEst okEst emptyRaw).samples = 0 ∧
    (extract_audio_metadata idResample okEst okEst emptyRaw).duration = 0 :=
  ⟨rfl, (duration_eq_samples_div_sr idResample okEst okEst emptyRaw).2 rfl⟩

/-- C8: the mixdown step maps a multi-channel input to the per-frame
arithmetic mean across all channels (frame i of the output is the sum of
frame i of the input divided by its channel count), and leaves a mono
input unchanged. -/
theorem mono_mixdown_is_channel_mean
    (rows : List (List ℚ)) (y : List ℚ) (i : Nat) :
    (toMono (Channels.multi rows))[i]? =
      (rows[i]?).map (fun r => r.sum / (r.length : ℚ)) ∧
    toMono (Channels.mono y) = y := by
  constructor
  · simp [toMono, npMeanAxis1]
  · rfl

/-- C9: when the native rate is already 16000, the resampling branch is
skipped entirely: the normalized samples are exactly the mono samples,
with the same count, whatever the resampler would compute. -/
theorem resample_at_16k_is_identity
    (rs : List ℚ → Nat → Nat → List ℚ)
    (raw : RawAudio) (h : raw.sr = 16000) :
    (normalizeSignal rs raw).1 = toMono raw.data ∧
    (normalizeSignal rs raw).2 = 16000 ∧
    (normalizeSignal rs raw).1.length = (toMono raw.data).length := by
  unfold normalizeSignal target_sr
  simp [h]

/-- C9 witness: a concrete 16 kHz clip passes through unchanged. -/
theorem resample_at_16k_witness :
    sampleRaw.sr = 16000 ∧
    (normalizeSignal idResample sampleRaw).1 = toMono sampleRaw.data ∧
    (normalizeSignal idResample sampleRaw).2 = 16000 :=
  ⟨rfl, (resample_at_16k_is_identity idResample sampleRaw rfl).1,
   (resample_at_16k_is_identity idResample sampleRaw rfl).2.1⟩

/-- C10: force_real_result returns exactly status 1, the fixed REAL
message, and the given profile unchanged; it is a pure function of its
argument. -/
theorem force_real_result_frame (info : AudioInfo) :
    force_real_result info =
      (1, "This audio was recorded live and is classified as REAL.", info) ∧
    (force_real_result info).2.2 = info :=
  ⟨rfl, rfl⟩

end StreamlitApp
